import Mathlib

/-!
Verification development for the django-notifications package.

The Python sources under notifications/ are shallowly embedded: the
Notification model row becomes a Lean structure, the process-wide settings
dictionary becomes an explicit configuration record threaded through every
operation, a Django queryset becomes a base store (a list of rows) together
with a composed filter predicate, raising an exception becomes returning
Except.error, and a bulk UPDATE becomes a map over the base store paired
with the matched-row count that Django returns.
-/

namespace DjangoNotifications

/-- Levels of a notification: Choices("success", "info", "warning", "error")
in base/models.py, default info. -/
inductive Level where
  | success
  | info
  | warning
  | error
deriving Repr, DecidableEq

/-- Values carried by leftover keyword arguments and by filter keywords: the
embedding restricts Python values to numbers, booleans and strings. -/
inductive PyVal where
  | num (n : Nat)
  | bool (b : Bool)
  | str (s : String)
deriving Repr, DecidableEq

/-- One row of the Notification model (AbstractNotification in
base/models.py). Polymorphic references are stored denormalized as a
content-type id plus an object id; target and action_object are optional.
The database-assigned primary key is modelled as a plain Nat (0 for a row
whose save has not been given an id); object ids, stored as CharFields in
the source, are modelled as the Nat primary keys they are written from. -/
structure Notification where
  id : Nat
  level : Level
  recipient : Nat
  unread : Bool
  actor_content_type : Nat
  actor_object_id : Nat
  verb : String
  description : Option String
  target_content_type : Option Nat
  target_object_id : Option Nat
  action_object_content_type : Option Nat
  action_object_object_id : Option Nat
  timestamp : Nat
  public : Bool
  deleted : Bool
  emailed : Bool
  data : Option (List (String × PyVal))
deriving Repr, DecidableEq

/-- Process-wide configuration (notifications settings.get_config()): the
SOFT_DELETE flag, the USE_JSONFIELD flag and the PAGINATE_BY page size.
The source reads these from ambient module state; the embedding passes the
record explicitly. -/
structure NotificationsConfig where
  soft_delete : Bool
  use_jsonfield : Bool
  paginate_by : Nat
deriving Repr, DecidableEq

/-- Errors raised by the embedded code paths. fieldError models Django
raising FieldError when a filter keyword resolves to no model field;
attributeError models Python attribute lookup failing on a missing method;
unmodelledFilter marks a filter shape no embedded view ever reaches. -/
inductive PyErr where
  | http404
  | improperlyConfigured
  | fieldError (keyword : String)
  | attributeError (attrName : String)
  | unmodelledFilter (keyword : String)
deriving Repr, DecidableEq

/-- is_soft_delete (base/models.py line 41): reads SOFT_DELETE from the
configuration. -/
def is_soft_delete (cfg : NotificationsConfig) : Bool :=
  cfg.soft_delete

/-- assert_soft_delete (base/models.py line 45): raises ImproperlyConfigured
when soft-delete mode is off. -/
def assert_soft_delete (cfg : NotificationsConfig) : Except PyErr Unit :=
  if !is_soft_delete cfg then Except.error PyErr.improperlyConfigured
  else Except.ok ()

/-- slug2id (utils.py line 6). -/
def slug2id (slug : Int) : Int :=
  slug - 110909

/-- id2slug (utils.py line 10). -/
def id2slug (notification_id : Int) : Int :=
  notification_id + 110909

/-- A Django queryset over the Notification table: the base store (the
table rows) together with the conjunction of the filters applied so far.
Evaluating the queryset yields the rows of the store that satisfy the
predicate; a bulk update rewrites exactly those rows inside the store. -/
structure QuerySet where
  store : List Notification
  pred : Notification → Bool

/-- Rows the queryset evaluates to. -/
def QuerySet.rows (qs : QuerySet) : List Notification :=
  qs.store.filter qs.pred

/-- filter(...) composes a further condition onto the queryset. -/
def QuerySet.filter (qs : QuerySet) (p : Notification → Bool) : QuerySet :=
  { store := qs.store, pred := fun n => qs.pred n && p n }

/-- update(...) as a single UPDATE statement: rewrites every store row
matched by the queryset predicate and returns the new store together with
the matched-row count that Django's update returns. -/
def QuerySet.update (qs : QuerySet) (f : Notification → Notification) :
    List Notification × Nat :=
  (qs.store.map (fun n => if qs.pred n then f n else n),
   (qs.store.filter qs.pred).length)

/-- NotificationQuerySet.unsent (base/models.py line 57). -/
def NotificationQuerySet.unsent (qs : QuerySet) : QuerySet :=
  qs.filter (fun n => n.emailed == false)

/-- NotificationQuerySet.sent (base/models.py line 60). -/
def NotificationQuerySet.sent (qs : QuerySet) : QuerySet :=
  qs.filter (fun n => n.emailed == true)

/-- NotificationQuerySet.unread (base/models.py line 63): only unread
items; under soft-delete mode deleted rows are excluded unless
include_deleted is passed. -/
def NotificationQuerySet.unread (cfg : NotificationsConfig) (qs : QuerySet)
    (include_deleted : Bool) : QuerySet :=
  if is_soft_delete cfg && !include_deleted then
    qs.filter (fun n => n.unread && !n.deleted)
  else
    qs.filter (fun n => n.unread)

/-- NotificationQuerySet.read (base/models.py line 72): only read items;
under soft-delete mode deleted rows are excluded unless include_deleted is
passed. -/
def NotificationQuerySet.read (cfg : NotificationsConfig) (qs : QuerySet)
    (include_deleted : Bool) : QuerySet :=
  if is_soft_delete cfg && !include_deleted then
    qs.filter (fun n => !n.unread && !n.deleted)
  else
    qs.filter (fun n => !n.unread)

/-- NotificationQuerySet.mark_all_as_read (base/models.py line 81): takes
self.unread(True) - include_deleted is passed as True - optionally narrows
to one recipient, and updates unread to False. -/
def NotificationQuerySet.mark_all_as_read (cfg : NotificationsConfig)
    (qs : QuerySet) (recipient : Option Nat) : List Notification × Nat :=
  let qset := NotificationQuerySet.unread cfg qs true
  let qset := match recipient with
    | some r => qset.filter (fun n => n.recipient == r)
    | none => qset
  qset.update (fun n => { n with unread := false })

/-- NotificationQuerySet.mark_all_as_unread (base/models.py line 94). -/
def NotificationQuerySet.mark_all_as_unread (cfg : NotificationsConfig)
    (qs : QuerySet) (recipient : Option Nat) : List Notification × Nat :=
  let qset := NotificationQuerySet.read cfg qs true
  let qset := match recipient with
    | some r => qset.filter (fun n => n.recipient == r)
    | none => qset
  qset.update (fun n => { n with unread := true })

/-- NotificationQuerySet.deleted (base/models.py line 106): requires
soft-delete mode, else raises. -/
def NotificationQuerySet.deleted (cfg : NotificationsConfig)
    (qs : QuerySet) : Except PyErr QuerySet := do
  assert_soft_delete cfg
  return qs.filter (fun n => n.deleted)

/-- NotificationQuerySet.active (base/models.py line 111): requires
soft-delete mode, else raises. -/
def NotificationQuerySet.active (cfg : NotificationsConfig)
    (qs : QuerySet) : Except PyErr QuerySet := do
  assert_soft_delete cfg
  return qs.filter (fun n => !n.deleted)

/-- NotificationQuerySet.mark_all_as_deleted (base/models.py line 116):
asserts soft-delete mode, then updates the active rows (optionally one
recipient) to deleted. The raise happens before any UPDATE runs, so an
error result carries no modified store. -/
def NotificationQuerySet.mark_all_as_deleted (cfg : NotificationsConfig)
    (qs : QuerySet) (recipient : Option Nat) :
    Except PyErr (List Notification × Nat) := do
  assert_soft_delete cfg
  let qset ← NotificationQuerySet.active cfg qs
  let qset := match recipient with
    | some r => qset.filter (fun n => n.recipient == r)
    | none => qset
  return qset.update (fun n => { n with deleted := true })

/-- NotificationQuerySet.mark_all_as_active (base/models.py line 127):
asserts soft-delete mode, then updates the deleted rows (optionally one
recipient) back to active. -/
def NotificationQuerySet.mark_all_as_active (cfg : NotificationsConfig)
    (qs : QuerySet) (recipient : Option Nat) :
    Except PyErr (List Notification × Nat) := do
  assert_soft_delete cfg
  let qset ← NotificationQuerySet.deleted cfg qs
  let qset := match recipient with
    | some r => qset.filter (fun n => n.recipient == r)
    | none => qset
  return qset.update (fun n => { n with deleted := false })

/-- NotificationQuerySet.mark_as_unsent (base/models.py line 138). -/
def NotificationQuerySet.mark_as_unsent (qs : QuerySet)
    (recipient : Option Nat) : List Notification × Nat :=
  let qset := NotificationQuerySet.sent qs
  let qset := match recipient with
    | some r => qset.filter (fun n => n.recipient == r)
    | none => qset
  qset.update (fun n => { n with emailed := false })

/-- NotificationQuerySet.mark_as_sent (base/models.py line 144). -/
def NotificationQuerySet.mark_as_sent (qs : QuerySet)
    (recipient : Option Nat) : List Notification × Nat :=
  let qset := NotificationQuerySet.unsent qs
  let qset := match recipient with
    | some r => qset.filter (fun n => n.recipient == r)
    | none => qset
  qset.update (fun n => { n with emailed := true })

/-- AbstractNotification.mark_as_read (base/models.py line 294): flips
unread to False and saves only when the row was unread. The Bool of the
result records whether save() ran. -/
def mark_as_read (n : Notification) : Notification × Bool :=
  if n.unread then ({ n with unread := false }, true) else (n, false)

/-- AbstractNotification.mark_as_unread (base/models.py line 299): flips
unread to True and saves only when the row was read. The Bool of the
result records whether save() ran. -/
def mark_as_unread (n : Notification) : Notification × Bool :=
  if !n.unread then ({ n with unread := true }, true) else (n, false)

/-- An entity a polymorphic reference can point at: its primary key, the
content-type id of its own model, and the content-type id of its concrete
model. The two content types differ exactly for proxy models; the host
framework resolves them, it is consumed here, not reimplemented. -/
structure Entity where
  pk : Nat
  content_type : Nat
  concrete_content_type : Nat
deriving Repr, DecidableEq

/-- ContentType.objects.get_for_model(obj, for_concrete_model=...): with the
flag set the concrete model content type is returned, without it the model
content type itself (they agree unless the model is a proxy). -/
def get_for_model (e : Entity) (for_concrete_model : Bool) : Nat :=
  if for_concrete_model then e.concrete_content_type else e.content_type

/-- A user row: only the id is read by notify_handler. -/
structure UserRec where
  id : Nat
deriving Repr, DecidableEq

/-- A group row: user_set.all() yields its members. -/
structure GroupRec where
  user_set : List UserRec
deriving Repr, DecidableEq

/-- The recipient keyword of a notify() call: a Group, a queryset or list
of users, or a single user (base/models.py lines 366-372). -/
inductive RecipientArg where
  | group (g : GroupRec)
  | users (us : List UserRec)
  | user (u : UserRec)
deriving Repr, DecidableEq

/-- Recipient normalization of notify_handler (base/models.py lines
366-373): a Group expands to its member set, a queryset or list stands as
is, anything else becomes a singleton; then each is replaced by its id. -/
def resolveRecipients : RecipientArg → List Nat
  | RecipientArg.group g => g.user_set.map (fun u => u.id)
  | RecipientArg.users us => us.map (fun u => u.id)
  | RecipientArg.user u => [u.id]

/-- Field names of the Notification model: the columns AbstractNotification
declares in base/models.py (plus the implicit primary key id). -/
def notificationFieldNames : List String :=
  ["id", "level", "recipient", "unread", "actor_content_type",
   "actor_object_id", "verb", "description", "target_content_type",
   "target_object_id", "action_object_content_type",
   "action_object_object_id", "timestamp", "public", "deleted", "emailed",
   "data"]

/-- Modelled from the spec: the concrete swapped-in Notification model
(notifications/models.py is not under src/) adds no field of its own - the
data-model section of the spec lists exactly the AbstractNotification
columns. -/
def concreteNotificationExtraFieldNames : List String := []

/-- Whether a keyword names a field of the Notification model. -/
def notificationHasField (kw : String) : Bool :=
  (notificationFieldNames ++ concreteNotificationExtraFieldNames).contains kw

/-- hasattr(newnotify, key) for a leftover keyword of notify_handler
(base/models.py line 408), restricted to model fields; non-field attributes
such as methods are not modelled. -/
def notificationHasAttr (kw : String) : Bool :=
  notificationHasField kw

/-- setattr(newnotify, key, value) for a leftover keyword matching a model
column (base/models.py line 409). Only the column and value shapes a
well-typed call can carry are given semantics; a shape mismatch leaves the
row unchanged. -/
def setModelAttr (n : Notification) (key : String) (v : PyVal) : Notification :=
  match key, v with
  | "recipient", PyVal.num r => { n with recipient := r }
  | "unread", PyVal.bool b => { n with unread := b }
  | "public", PyVal.bool b => { n with public := b }
  | "deleted", PyVal.bool b => { n with deleted := b }
  | "emailed", PyVal.bool b => { n with emailed := b }
  | "verb", PyVal.str s => { n with verb := s }
  | "description", PyVal.str s => { n with description := some s }
  | "timestamp", PyVal.num t => { n with timestamp := t }
  | _, _ => n

/-- The kwargs entry a still-unpopped for_concrete_model flag contributes
to the keyword dictionary. -/
def flagEntry (key : String) : Option Bool → List (String × PyVal)
  | none => []
  | some b => [(key, PyVal.bool b)]

/-- Arguments of one notify() signal call, after notify_handler has popped
the named options off kwargs (base/models.py lines 352-364): recipient,
sender, the two optional objects, public (bool, default True), description
(default None), timestamp, level (default info) and
actor_for_concrete_model (bool, default True). target_for_concrete_model
and action_object_for_concrete_model stay inside kwargs and are popped only
later, inside the per-recipient loop, so they are carried as Option Bool
(none when the caller did not pass the key); extra holds the remaining
unrecognized keyword arguments. -/
structure NotifyParams where
  recipient : RecipientArg
  sender : Entity
  target : Option Entity
  action_object : Option Entity
  public : Bool
  description : Option String
  timestamp : Nat
  level : Level
  actor_for_concrete_model : Bool
  target_for_concrete_model : Option Bool
  action_object_for_concrete_model : Option Bool
  extra : List (String × PyVal)

/-- The per-recipient loop of notify_handler (base/models.py lines
377-413). The two optional-object for_concrete_model flags live in the
mutable kwargs dictionary: when the matching object is present the flag is
popped - with default True - inside this loop, so after the first
recipient the key is gone and later recipients read the default (the
threaded Option Bool becomes none). The leftover kwargs (extra plus any
still-unpopped flag) feed the EXTRA_DATA block: keys matching model
attributes are set as columns, the rest land in data; that block works on
a copy, so it is the same for every recipient. Rows are returned in
creation order; the database id assigned by save() is not modelled. -/
def notifyLoop (use_jsonfield : Bool) (verb : String) (actor : Entity)
    (actor_ct : Nat) (publicVal : Bool) (description : Option String)
    (timestamp : Nat) (level : Level) (target : Option Entity)
    (action_object : Option Entity) (extra : List (String × PyVal)) :
    Option Bool → Option Bool → List Nat → List Notification
  | _, _, [] => []
  | tflag, aflag, r :: rest =>
    let tpop : Option Nat × Option Nat × Option Bool :=
      match target with
      | none => (none, none, tflag)
      | some obj =>
          (some (get_for_model obj (tflag.getD true)), some obj.pk, none)
    let apop : Option Nat × Option Nat × Option Bool :=
      match action_object with
      | none => (none, none, aflag)
      | some obj =>
          (some (get_for_model obj (aflag.getD true)), some obj.pk, none)
    let kwargsNow : List (String × PyVal) :=
      extra ++ flagEntry "target_for_concrete_model" tpop.2.2
            ++ flagEntry "action_object_for_concrete_model" apop.2.2
    let base : Notification :=
      { id := 0, level := level, recipient := r, unread := true,
        actor_content_type := actor_ct, actor_object_id := actor.pk,
        verb := verb, description := description,
        target_content_type := tpop.1, target_object_id := tpop.2.1,
        action_object_content_type := apop.1,
        action_object_object_id := apop.2.1,
        timestamp := timestamp, public := publicVal, deleted := false,
        emailed := false, data := none }
    let row : Notification :=
      if !kwargsNow.isEmpty && use_jsonfield then
        let matched := kwargsNow.filter (fun kv => notificationHasAttr kv.1)
        let leftover := kwargsNow.filter (fun kv => !notificationHasAttr kv.1)
        { matched.foldl (fun acc kv => setModelAttr acc kv.1 kv.2) base with
          data := some leftover }
      else base
    row :: notifyLoop use_jsonfield verb actor actor_ct publicVal
      description timestamp level target action_object extra
      tpop.2.2 apop.2.2 rest

/-- notify_handler (base/models.py lines 348-415): normalizes the
recipients, resolves the actor content type once - with
actor_for_concrete_model popped before the loop - then builds and saves
one row per recipient and returns the created rows in order. -/
def notify_handler (cfg : NotificationsConfig) (verb : String)
    (p : NotifyParams) : List Notification :=
  let recipients := resolveRecipients p.recipient
  let actor_ct := get_for_model p.sender p.actor_for_concrete_model
  notifyLoop cfg.use_jsonfield verb p.sender actor_ct p.public
    p.description p.timestamp p.level p.target p.action_object p.extra
    p.target_for_concrete_model p.action_object_for_concrete_model
    recipients

/-- Django keyword filtering, Notification.objects.filter(kw=value): a
keyword that resolves to no field of the model raises FieldError before any
row is touched. Of the resolvable keywords, the keyword-value shapes the
embedded views use (recipient with a user id, unread and deleted with a
boolean) are given semantics; other shapes are reached by no embedded view
and are marked unmodelledFilter. -/
def applyFilterKeyword (kw : String) (v : PyVal) (qs : List Notification) :
    Except PyErr (List Notification) :=
  if notificationHasField kw then
    match kw, v with
    | "recipient", PyVal.num r =>
        Except.ok (qs.filter (fun n => n.recipient == r))
    | "unread", PyVal.bool b =>
        Except.ok (qs.filter (fun n => n.unread == b))
    | "deleted", PyVal.bool b =>
        Except.ok (qs.filter (fun n => n.deleted == b))
    | other, _ => Except.error (PyErr.unmodelledFilter other)
  else
    Except.error (PyErr.fieldError kw)

/-- filter(kw1=v1, kw2=v2, ...) applied left to right. -/
def filterByKwargs : List (String × PyVal) → List Notification →
    Except PyErr (List Notification)
  | [], qs => Except.ok qs
  | (kw, v) :: rest, qs =>
      match applyFilterKeyword kw v qs with
      | Except.error e => Except.error e
      | Except.ok qs2 => filterByKwargs rest qs2

/-- AllNotificationsList.get_queryset (views.py lines 55-63): under
soft-delete mode the source filters on the keyword active=True - active is
a NotificationQuerySet method, not a model field - otherwise it filters on
the recipient alone. The request's user id stands for the authenticated
user. -/
def AllNotificationsList.get_queryset (cfg : NotificationsConfig)
    (store : List Notification) (user : Nat) :
    Except PyErr (List Notification) :=
  if cfg.soft_delete then
    filterByKwargs
      [("recipient", PyVal.num user), ("active", PyVal.bool true)] store
  else
    filterByKwargs [("recipient", PyVal.num user)] store

/-- UnreadNotificationsList.get_queryset (views.py lines 67-71). -/
def UnreadNotificationsList.get_queryset (store : List Notification)
    (user : Nat) : Except PyErr (List Notification) :=
  filterByKwargs
    [("recipient", PyVal.num user), ("unread", PyVal.bool true)] store

/-- get_object_or_404(Notification, recipient=request.user.id,
id=notification_id) as the views use it: the first stored row of the
requesting user carrying the id, or none (the view answers 404). -/
def findUserNotification (store : List Notification) (user : Nat)
    (nid : Int) : Option Notification :=
  store.find? (fun n => n.recipient == user && ((n.id : Int) == nid))

/-- instance.save() on an existing row: the stored row with the same
primary key is overwritten. -/
def saveRow (store : List Notification) (n : Notification) :
    List Notification :=
  store.map (fun m => if m.id == n.id then n else m)

/-- instance.delete(): the stored row with this primary key is removed. -/
def deleteRow (store : List Notification) (n : Notification) :
    List Notification :=
  store.filter (fun m => !(m.id == n.id))

/-- The delete view (views.py lines 144-169): resolves the slug back to an
id, looks the notification up for the requesting user (404 when absent),
then - under soft-delete mode - sets deleted=True and saves, otherwise
deletes the row from storage. The redirect that follows is not modelled;
the result is the updated store. -/
def delete_view (cfg : NotificationsConfig) (store : List Notification)
    (user : Nat) (slug : Int) : Except PyErr (List Notification) :=
  let notification_id := slug2id slug
  match findUserNotification store user notification_id with
  | none => Except.error PyErr.http404
  | some notification =>
      if cfg.soft_delete then
        Except.ok (saveRow store { notification with deleted := true })
      else
        Except.ok (deleteRow store notification)

/-- Method names the class NotificationQuerySet defines (base/models.py
lines 54-148). -/
def notificationQuerySetMethodNames : List String :=
  ["unsent", "sent", "unread", "read", "mark_all_as_read",
   "mark_all_as_unread", "deleted", "active", "mark_all_as_deleted",
   "mark_all_as_active", "mark_as_unsent", "mark_as_sent"]

/-- Modelled from the spec: queryset operations inherited from the host
framework's relational query engine, which is consumed, not reimplemented.
The query-scope contract of the spec lists no delete_all operation
anywhere, and the concrete Notification model (notifications/models.py is
not under src/) swaps in no manager of its own. -/
def baseQuerySetMethodNames : List String :=
  ["all", "filter", "exclude", "get", "count", "update", "delete"]

/-- Whether attribute lookup on a notification queryset finds a method. -/
def querySetHasMethod (name : String) : Bool :=
  (notificationQuerySetMethodNames ++ baseQuerySetMethodNames).contains name

/-- The delete_all view (views.py lines 87-98): scopes the queryset to the
requesting user, then calls notifications.delete_all(). No class in the
repository defines such a method, so attribute lookup fails; the
then-branch is unreachable and is given no semantics beyond returning the
scoped rows. -/
def delete_all_view (store : List Notification) (user : Nat) :
    Except PyErr (List Notification) :=
  let notifications := store.filter (fun n => n.recipient == user)
  if querySetHasMethod "delete_all" then
    Except.ok notifications
  else
    Except.error (PyErr.attributeError "delete_all")

/-- Modelled from the spec: helpers.get_notification_list
(notifications/helpers.py is not under src/) returns the rendered list for
the requesting user - the unread variant the unread rows, otherwise all of
the user's rows. Entry rendering is abstracted as the rows themselves; it
plays no part in the unauthenticated branches below. -/
def get_notification_list (store : List Notification) (uid : Nat)
    (filterKind : Option String) : List Notification :=
  match filterKind with
  | some "unread" => store.filter (fun n => n.recipient == uid && n.unread)
  | _ => store.filter (fun n => n.recipient == uid)

/-- A value of the JSON payload a live endpoint returns: a count or a
rendered list. -/
inductive JVal where
  | num (n : Nat)
  | list (items : List Notification)
deriving Repr, DecidableEq

/-- live_unread_notification_count (views.py lines 172-185): the request
user is none when unauthenticated, in which case the payload is a zero
count; else the count of the user's unread rows. -/
def live_unread_notification_count (store : List Notification)
    (user : Option Nat) : List (String × JVal) :=
  match user with
  | none => [("unread_count", JVal.num 0)]
  | some uid =>
      [("unread_count",
        JVal.num (store.filter (fun n => n.recipient == uid && n.unread)).length)]

/-- live_unread_notification_list (views.py lines 188-206). -/
def live_unread_notification_list (store : List Notification)
    (user : Option Nat) : List (String × JVal) :=
  match user with
  | none => [("unread_count", JVal.num 0), ("unread_list", JVal.list [])]
  | some uid =>
      [("unread_count",
        JVal.num (store.filter (fun n => n.recipient == uid && n.unread)).length),
       ("unread_list",
        JVal.list (get_notification_list store uid (some "unread")))]

/-- live_all_notification_list (views.py lines 209-224). -/
def live_all_notification_list (store : List Notification)
    (user : Option Nat) : List (String × JVal) :=
  match user with
  | none => [("all_count", JVal.num 0), ("all_list", JVal.list [])]
  | some uid =>
      [("all_count",
        JVal.num (store.filter (fun n => n.recipient == uid)).length),
       ("all_list", JVal.list (get_notification_list store uid none))]

/-- live_all_notification_count (views.py lines 227-236). -/
def live_all_notification_count (store : List Notification)
    (user : Option Nat) : List (String × JVal) :=
  match user with
  | none => [("all_count", JVal.num 0)]
  | some uid =>
      [("all_count",
        JVal.num (store.filter (fun n => n.recipient == uid)).length)]

/-- Rows flipped between an old and a new state of the store: positions
whose unread flag differs. -/
def countFlipped (oldStore newStore : List Notification) : Nat :=
  ((oldStore.zip newStore).filter
    (fun q => q.1.unread != q.2.unread)).length

/-- A sample stored notification for the concrete witnesses: id 1,
recipient 5, unread and not deleted. -/
def sampleRow : Notification :=
  { id := 1, level := Level.info, recipient := 5, unread := true,
    actor_content_type := 3, actor_object_id := 1, verb := "commented",
    description := none, target_content_type := none,
    target_object_id := none, action_object_content_type := none,
    action_object_object_id := none, timestamp := 0, public := true,
    deleted := false, emailed := false, data := none }

/-- The actor of the concrete notify() call below. -/
def c1sender : Entity :=
  { pk := 1, content_type := 3, concrete_content_type := 3 }

/-- A proxy-model target: its own content type (7) differs from its
concrete model content type (8). -/
def c1target : Entity :=
  { pk := 55, content_type := 7, concrete_content_type := 8 }

/-- A concrete notify() call: two recipients, the proxy target and
target_for_concrete_model=False passed in kwargs. -/
def c1params : NotifyParams :=
  { recipient := RecipientArg.users [{ id := 10 }, { id := 11 }],
    sender := c1sender, target := some c1target, action_object := none,
    public := true, description := none, timestamp := 0,
    level := Level.info, actor_for_concrete_model := true,
    target_for_concrete_model := some false,
    action_object_for_concrete_model := none, extra := [] }

/-- Bulk-updating the unread flag to false over a predicate flips exactly
the matched unread rows: the position count of differing unread flags
equals the matched-row count of the update. -/
theorem countFlipped_unread_update (store : List Notification)
    (p : Notification → Bool) :
    countFlipped store
        (store.map (fun m => if p m && m.unread then { m with unread := false } else m))
      = (store.filter (fun m => p m && m.unread)).length := by
  induction store with
  | nil => rfl
  | cons a l ih =>
      unfold countFlipped at ih ⊢
      rw [List.map_cons, List.zip_cons_cons]
      by_cases hp : (p a && a.unread) = true
      · have hu : a.unread = true := by
          simp only [Bool.and_eq_true] at hp
          exact hp.2
        rw [if_pos hp, List.filter_cons_of_pos (by simp [hu]),
          List.length_cons, List.filter_cons, if_pos hp, List.length_cons, ih]
      · rw [if_neg hp, List.filter_cons_of_neg (by simp),
          List.filter_cons, if_neg hp, ih]

/-- C1: the fan-out of notify_handler evaluated at the failing input. Two
recipients, a proxy-model target (content type 7, concrete content type 8)
and target_for_concrete_model=False: the flag is popped off kwargs inside
the per-recipient loop, so the first row resolves the target content type
with the flag (7) and the second falls back to the default True (8) - the
rows do not share the same target reference, against the handler's own
intent that every recipient get the same kwargs. -/
theorem notify_handler_target_reference_not_shared :
    (notify_handler ⟨false, false, 25⟩ "commented" c1params).map
        (fun n => n.recipient) = [10, 11]
    ∧ (notify_handler ⟨false, false, 25⟩ "commented" c1params).map
        (fun n => n.target_content_type) = [some 7, some 8] :=
  ⟨rfl, rfl⟩

/-- C2: with soft-delete mode on, mark_all_as_read on a queryset flips
every queryset row that was unread and not deleted to read, leaves
already-read rows (and rows outside the queryset) unchanged, and returns
the number of rows whose unread flag actually flipped. -/
theorem mark_all_as_read_soft_delete (uj : Bool) (pb : Nat)
    (store : List Notification) (pred : Notification → Bool) (i : Nat)
    (n : Notification) (hn : store[i]? = some n) :
    (pred n = true → n.unread = true → n.deleted = false →
      (NotificationQuerySet.mark_all_as_read ⟨true, uj, pb⟩ ⟨store, pred⟩ none).1[i]?
        = some { n with unread := false })
    ∧ (pred n = true → n.unread = false →
      (NotificationQuerySet.mark_all_as_read ⟨true, uj, pb⟩ ⟨store, pred⟩ none).1[i]?
        = some n)
    ∧ (pred n = false →
      (NotificationQuerySet.mark_all_as_read ⟨true, uj, pb⟩ ⟨store, pred⟩ none).1[i]?
        = some n)
    ∧ (NotificationQuerySet.mark_all_as_read ⟨true, uj, pb⟩ ⟨store, pred⟩ none).2
        = countFlipped store
            (NotificationQuerySet.mark_all_as_read ⟨true, uj, pb⟩ ⟨store, pred⟩ none).1 := by
  have hform : NotificationQuerySet.mark_all_as_read ⟨true, uj, pb⟩ ⟨store, pred⟩ none
      = (store.map (fun m => if pred m && m.unread then { m with unread := false } else m),
         (store.filter (fun m => pred m && m.unread)).length) := rfl
  have hget : (store.map
        (fun m => if pred m && m.unread then { m with unread := false } else m))[i]?
      = some (if pred n && n.unread then { n with unread := false } else n) := by
    rw [List.getElem?_map, hn]
    rfl
  refine ⟨?_, ?_, ?_, ?_⟩
  · intro hp hu _
    rw [hform]
    simpa [hp, hu] using hget
  · intro hp hu
    rw [hform]
    simpa [hp, hu] using hget
  · intro hp
    rw [hform]
    simpa [hp] using hget
  · rw [hform]
    exact (countFlipped_unread_update store pred).symm

/-- C2 witness: a single unread, undeleted stored row under the queryset
keeping everything: the row flips to read and the returned count equals
the one actually flipped row. -/
theorem mark_all_as_read_soft_delete_witness :
    (NotificationQuerySet.mark_all_as_read ⟨true, false, 25⟩ ⟨[sampleRow], fun _ => true⟩ none).1[0]?
        = some { sampleRow with unread := false }
    ∧ (NotificationQuerySet.mark_all_as_read ⟨true, false, 25⟩ ⟨[sampleRow], fun _ => true⟩ none).2
        = countFlipped [sampleRow]
            (NotificationQuerySet.mark_all_as_read ⟨true, false, 25⟩ ⟨[sampleRow], fun _ => true⟩ none).1 :=
  ⟨(mark_all_as_read_soft_delete false 25 [sampleRow] (fun _ => true) 0 sampleRow rfl).1
      rfl rfl rfl,
   (mark_all_as_read_soft_delete false 25 [sampleRow] (fun _ => true) 0 sampleRow rfl).2.2.2⟩

/-- C3: id2slug and slug2id are mutual inverses on the non-negative ids,
and the slug is the internal id plus the fixed offset 110909. -/
theorem slug_id_mutual_inverse :
    (∀ nid : Int, 0 ≤ nid → slug2id (id2slug nid) = nid)
    ∧ (∀ nid : Int, 0 ≤ nid → id2slug (slug2id (id2slug nid)) = id2slug nid)
    ∧ (∀ nid : Int, id2slug nid = nid + 110909) := by
  refine ⟨fun nid _ => ?_, fun nid _ => ?_, fun nid => rfl⟩ <;>
    simp only [slug2id, id2slug] <;> omega

/-- C3 witness: both round trips at the concrete id 42. -/
theorem slug_id_mutual_inverse_witness :
    slug2id (id2slug 42) = 42 ∧ id2slug (slug2id (id2slug 42)) = id2slug 42 :=
  ⟨slug_id_mutual_inverse.1 42 (by decide),
   slug_id_mutual_inverse.2.1 42 (by decide)⟩

/-- C4: unread() evaluates to exactly the queryset rows with unread=true
and read() to exactly those with unread=false, and each excludes the
deleted=true rows precisely when soft-delete mode is enabled and
include_deleted is false - otherwise deleted rows are included. -/
theorem unread_read_scope_deleted_filtering (cfg : NotificationsConfig)
    (incl : Bool) (store : List Notification) (pred : Notification → Bool)
    (n : Notification) :
    (n ∈ (NotificationQuerySet.unread cfg ⟨store, pred⟩ incl).rows ↔
      n ∈ QuerySet.rows ⟨store, pred⟩ ∧ n.unread = true
        ∧ (cfg.soft_delete = true → incl = false → n.deleted = false))
    ∧ (n ∈ (NotificationQuerySet.read cfg ⟨store, pred⟩ incl).rows ↔
      n ∈ QuerySet.rows ⟨store, pred⟩ ∧ n.unread = false
        ∧ (cfg.soft_delete = true → incl = false → n.deleted = false)) := by
  obtain ⟨sd, uj, pb⟩ := cfg
  cases sd <;> cases incl <;>
    simp [NotificationQuerySet.unread, NotificationQuerySet.read,
      is_soft_delete, QuerySet.rows, QuerySet.filter, List.mem_filter,
      Bool.not_eq_true'] <;>
    tauto

/-- C5: with soft-delete mode disabled, deleted(), active(),
mark_all_as_deleted() and mark_all_as_active() all raise
ImproperlyConfigured; the raise precedes every UPDATE, so the error result
carries no modified store and the stored rows are untouched. -/
theorem soft_delete_gated_methods_raise (uj : Bool) (pb : Nat)
    (store : List Notification) (pred : Notification → Bool)
    (recipient : Option Nat) :
    NotificationQuerySet.deleted ⟨false, uj, pb⟩ ⟨store, pred⟩
        = Except.error PyErr.improperlyConfigured
    ∧ NotificationQuerySet.active ⟨false, uj, pb⟩ ⟨store, pred⟩
        = Except.error PyErr.improperlyConfigured
    ∧ NotificationQuerySet.mark_all_as_deleted ⟨false, uj, pb⟩ ⟨store, pred⟩ recipient
        = Except.error PyErr.improperlyConfigured
    ∧ NotificationQuerySet.mark_all_as_active ⟨false, uj, pb⟩ ⟨store, pred⟩ recipient
        = Except.error PyErr.improperlyConfigured :=
  ⟨rfl, rfl, rfl, rfl⟩

/-- C6: an authenticated delete on an existing notification of the
requesting user marks the row deleted under soft-delete mode - the row
stays stored, with deleted=true, and active() excludes it - while with
soft-delete mode off the row is removed from storage entirely. -/
theorem delete_view_soft_and_hard (cfg : NotificationsConfig)
    (store : List Notification) (user : Nat) (slug : Int)
    (n : Notification)
    (hfind : findUserNotification store user (slug2id slug) = some n) :
    (cfg.soft_delete = true →
      delete_view cfg store user slug
          = Except.ok (saveRow store { n with deleted := true })
        ∧ (saveRow store { n with deleted := true }).length = store.length
        ∧ { n with deleted := true } ∈ saveRow store { n with deleted := true }
        ∧ ∀ qs, NotificationQuerySet.active cfg
              ⟨saveRow store { n with deleted := true }, fun _ => true⟩
              = Except.ok qs →
            { n with deleted := true } ∉ qs.rows)
    ∧ (cfg.soft_delete = false →
      delete_view cfg store user slug = Except.ok (deleteRow store n)
        ∧ ∀ m ∈ deleteRow store n, m.id ≠ n.id) := by
  constructor
  · intro hsd
    refine ⟨?_, ?_, ?_, ?_⟩
    · simp [delete_view, hfind, hsd]
    · simp [saveRow]
    · have hmem : n ∈ store := List.mem_of_find?_eq_some hfind
      refine List.mem_map.mpr ⟨n, hmem, ?_⟩
      simp
    · intro qs hq
      have hact : NotificationQuerySet.active cfg
          ⟨saveRow store { n with deleted := true }, fun _ => true⟩
          = Except.ok (QuerySet.filter
              ⟨saveRow store { n with deleted := true }, fun _ => true⟩
              (fun m => !m.deleted)) := by
        unfold NotificationQuerySet.active assert_soft_delete is_soft_delete
        rw [hsd]
        rfl
      rw [hact] at hq
      cases hq
      intro hmem
      have := (List.mem_filter.mp hmem).2
      simp [QuerySet.filter] at this
  · intro hsd
    constructor
    · simp [delete_view, hfind, hsd]
    · intro m hm
      have := (List.mem_filter.mp hm).2
      simpa using this

/-- C6 witness: the soft-delete half at a one-row store: the row of user 5
with id 1, addressed through its slug 110910. -/
theorem delete_view_soft_and_hard_witness :
    delete_view ⟨true, false, 25⟩ [sampleRow] 5 110910
        = Except.ok (saveRow [sampleRow] { sampleRow with deleted := true })
    ∧ (saveRow [sampleRow] { sampleRow with deleted := true }).length
        = [sampleRow].length
    ∧ { sampleRow with deleted := true }
        ∈ saveRow [sampleRow] { sampleRow with deleted := true }
    ∧ ∀ qs, NotificationQuerySet.active ⟨true, false, 25⟩
          ⟨saveRow [sampleRow] { sampleRow with deleted := true }, fun _ => true⟩
          = Except.ok qs →
        { sampleRow with deleted := true } ∉ qs.rows :=
  (delete_view_soft_and_hard ⟨true, false, 25⟩ [sampleRow] 5 110910 sampleRow
    (by decide)).1 rfl

/-- C7: with soft-delete mode off the all-notifications list is the
requesting user's rows; with soft-delete mode on the view filters on the
keyword active=True, which names no field of the Notification model, and
raises FieldError for every request instead of returning only the active
rows. -/
theorem all_notifications_list_active_fielderror :
    (∀ (uj : Bool) (pb : Nat) (store : List Notification) (user : Nat),
      AllNotificationsList.get_queryset ⟨true, uj, pb⟩ store user
        = Except.error (PyErr.fieldError "active"))
    ∧ (∀ (uj : Bool) (pb : Nat) (store : List Notification) (user : Nat),
      AllNotificationsList.get_queryset ⟨false, uj, pb⟩ store user
        = Except.ok (store.filter (fun n => n.recipient == user))) := by
  constructor <;> intro uj pb store user <;> rfl

/-- C8: the delete-all endpoint scopes the queryset to the requesting
user, but then calls notifications.delete_all(), a method neither
NotificationQuerySet nor the framework queryset defines: every request
raises AttributeError, and no notification is deleted or marked
deleted. -/
theorem delete_all_view_attribute_error :
    querySetHasMethod "delete_all" = false
    ∧ ∀ (store : List Notification) (user : Nat),
        delete_all_view store user
          = Except.error (PyErr.attributeError "delete_all") := by
  refine ⟨by decide, fun store user => ?_⟩
  rfl

/-- C9: every JSON endpoint answers an unauthenticated request with a
zero count and/or empty list payload rather than an error; in particular
the unread-count endpoint returns unread_count = 0. -/
theorem json_endpoints_unauthenticated_zero (store : List Notification) :
    live_unread_notification_count store none = [("unread_count", JVal.num 0)]
    ∧ live_unread_notification_list store none
        = [("unread_count", JVal.num 0), ("unread_list", JVal.list [])]
    ∧ live_all_notification_list store none
        = [("all_count", JVal.num 0), ("all_list", JVal.list [])]
    ∧ live_all_notification_count store none = [("all_count", JVal.num 0)] :=
  ⟨rfl, rfl, rfl, rfl⟩

/-- C10: mark_as_read saves exactly when the row was unread and
mark_as_unread exactly when it was read, so a repeated call finds its
fixed point: the second call changes nothing and performs no write. -/
theorem mark_read_unread_idempotent (n : Notification) :
    (mark_as_read n).2 = n.unread
    ∧ (mark_as_unread n).2 = !n.unread
    ∧ mark_as_read (mark_as_read n).1 = ((mark_as_read n).1, false)
    ∧ mark_as_unread (mark_as_unread n).1 = ((mark_as_unread n).1, false) := by
  cases hu : n.unread <;> simp [mark_as_read, mark_as_unread, hu]

end DjangoNotifications
